import Mathlib

/-!
Verification of the Ytulum property purchase configurator
(`ytulum_configurator_app.py`).

The pricing and amortization arithmetic of the script (steps 5-8 of the
source: final price, per-buyer split, downpayment, loan amount, annuity
monthly payment, total paid, payment timeline arrays, and display
trimming) is embedded shallowly below.  Money and rates are modelled as
exact rationals (`ℚ`); Python's `ZeroDivisionError` and `KeyError` are
modelled by `Option`-valued computation, where `none` means the script
raises an uncaught exception.
-/

/-- Per-unit-type catalog data: configuration names, base price (flat
amount or a per-configuration table, mirroring the `isinstance(..., dict)`
test at line 25 of the source), and upgrade costs. -/
structure UnitTypeInfo where
  configurations : List String
  basePrice : ℚ ⊕ List (String × ℚ)
  upgrades : List (String × ℚ)
deriving DecidableEq

/-- Financing block of the loaded configuration file. -/
structure Financing where
  maxBuyers : ℕ
  downpaymentOptionsPercent : List ℚ
  loanDurationsYears : List ℕ
  interestRateAnnual : ℚ
deriving DecidableEq

/-- The loaded configuration file (`Ytulum_Purchase_Config.json`). -/
structure CatalogConfig where
  unitTypes : List (String × UnitTypeInfo)
  artTiers : List (String × ℚ)
  financing : Financing
deriving DecidableEq

/-- One user selection, as collected by the widgets of the script. -/
structure Selection where
  unitType : String
  configuration : String
  selectedUpgrades : List String
  artTier : String
  numBuyers : ℕ
  downpaymentPercent : ℚ
  loanDurationYears : ℕ
deriving DecidableEq

/-- The quote derived by the script's step 6 (source lines 50-60). -/
structure Quote where
  basePrice : ℚ
  upgradeTotal : ℚ
  artCost : ℚ
  finalPrice : ℚ
  pricePerBuyer : ℚ
  downpayment : ℚ
  loanAmount : ℚ
  months : ℕ
  monthlyInterest : ℚ
  monthlyPayment : ℚ
  totalPaid : ℚ
deriving DecidableEq

/-- Division as Python performs it: dividing by zero raises
`ZeroDivisionError`, modelled as `none`. -/
def safeDiv (a b : ℚ) : Option ℚ :=
  if b = 0 then none else some (a / b)

/-- Source line 25: `base_price = unit_info["base_price_usd"][configuration]
if isinstance(unit_info["base_price_usd"], dict) else
unit_info["base_price_usd"]`.  A missing per-configuration entry raises
`KeyError` (`none`). -/
def resolve_base_price (info : UnitTypeInfo) (configuration : String) : Option ℚ :=
  match info.basePrice with
  | .inl flat => some flat
  | .inr table => table.lookup configuration

/-- Source lines 30-34: the checkbox loop walks the catalog's upgrade
table in order and adds the price of every checked upgrade. -/
def upgrade_total (info : UnitTypeInfo) (selected : List String) : ℚ :=
  ((info.upgrades.filter fun p => selected.contains p.1).map fun p => p.2).sum

/-- Source lines 18-60: the script's quote computation.  Dictionary
lookups (`config["unit_types"][...]`, `config["art_tiers"][...]`, the
per-configuration price table) raise `KeyError` on unknown keys, and
divisions raise `ZeroDivisionError` on zero denominators; both uncaught
faults are modelled by `none`. -/
def computeQuoteScript (c : CatalogConfig) (s : Selection) : Option Quote :=
  match c.unitTypes.lookup s.unitType with
  | none => none
  | some info =>
    match resolve_base_price info s.configuration with
    | none => none
    | some base =>
      let upgTot := upgrade_total info s.selectedUpgrades
      match c.artTiers.lookup s.artTier with
      | none => none
      | some mult =>
        let artC := base * mult
        let fp := base + upgTot + artC
        match safeDiv fp (s.numBuyers : ℚ) with
        | none => none
        | some ppb =>
          let dp := ppb * (s.downpaymentPercent / 100)
          let loan := ppb - dp
          let m := s.loanDurationYears * 12
          let r := c.financing.interestRateAnnual / 12
          match (if s.downpaymentPercent < 100 then
                   safeDiv (loan * (r * (1 + r) ^ m)) ((1 + r) ^ m - 1)
                 else some 0) with
          | none => none
          | some mp =>
            some { basePrice := base, upgradeTotal := upgTot, artCost := artC,
                   finalPrice := fp, pricePerBuyer := ppb, downpayment := dp,
                   loanAmount := loan, months := m, monthlyInterest := r,
                   monthlyPayment := mp, totalPaid := dp + mp * m }

/-- Source line 100: `labels_array = ["Downpayment"] + [f"Month {i+1}" for i
in range(months)]`. -/
def labels_array (months : ℕ) : List String :=
  "Downpayment" :: (List.range months).map fun i => "Month " ++ toString (i + 1)

/-- Source line 101: `payments_array = [downpayment] + [monthly_payment] *
months`. -/
def payments_array (downpayment monthly_payment : ℚ) (months : ℕ) : List ℚ :=
  downpayment :: List.replicate months monthly_payment

/-- The payment schedule as a single sequence of labelled cash-flow
entries: the pairing of the script's two parallel arrays. -/
def schedule (downpayment monthly_payment : ℚ) (months : ℕ) : List (String × ℚ) :=
  (labels_array months).zip (payments_array downpayment monthly_payment months)

/-- Source line 104: the chart slider's lower bound. -/
def slider_min : ℕ := 6

/-- Source line 105: `slider_max = max(slider_min + 6, months)`. -/
def slider_max (months : ℕ) : ℕ := max (slider_min + 6) months

/-- Source line 114: `trimmed_labels = labels_array[:months_to_show + 1]`. -/
def trimmed_labels (labels : List String) (months_to_show : ℕ) : List String :=
  labels.take (months_to_show + 1)

/-- Source line 115: `trimmed_values = payments_array[:months_to_show + 1]`. -/
def trimmed_values (payments : List ℚ) (months_to_show : ℕ) : List ℚ :=
  payments.take (months_to_show + 1)

/-- The per-request failure kind of the specified engine. -/
inductive SelectionError where
  | unknownUnitType
  | unknownConfiguration
  | unknownUpgrade
  | unknownArtTier
  | buyersOutOfRange
  | downpaymentNotOffered
  | durationNotOffered
  | nonpositiveMonths
deriving DecidableEq

/-- True exactly on successful results. -/
def exceptOk (e : Except SelectionError Quote) : Bool :=
  match e with
  | .ok _ => true
  | .error _ => false

/-- Modelled from the spec: the engine entry point
`computeQuote(catalog, selection) -> PurchaseQuote` of section 4.2, which
is absent from the source as a standalone function (the script's widgets
constrain the inputs instead).  It validates every selection field
against the catalog (unknown unit type / configuration / upgrade / art
tier, buyer count outside [1, maxBuyers], downpayment percent or loan
duration not among the configured options, nonpositive months) and fails
with a `SelectionError`, then computes the quote with the spec's
three-branch monthly-payment formula (full downpayment, zero interest,
annuity). -/
def computeQuote (c : CatalogConfig) (s : Selection) : Except SelectionError Quote :=
  match c.unitTypes.lookup s.unitType with
  | none => .error .unknownUnitType
  | some info =>
    if s.configuration ∈ info.configurations then
      match resolve_base_price info s.configuration with
      | none => .error .unknownConfiguration
      | some base =>
        if s.selectedUpgrades.all (fun u => (info.upgrades.lookup u).isSome) then
          match c.artTiers.lookup s.artTier with
          | none => .error .unknownArtTier
          | some mult =>
            if 1 ≤ s.numBuyers ∧ s.numBuyers ≤ c.financing.maxBuyers then
              if s.downpaymentPercent ∈ c.financing.downpaymentOptionsPercent then
                if s.loanDurationYears ∈ c.financing.loanDurationsYears then
                  if 0 < s.loanDurationYears * 12 then
                    let upgTot := (s.selectedUpgrades.map
                      fun u => ((info.upgrades.lookup u).getD 0)).sum
                    let artC := base * mult
                    let fp := base + upgTot + artC
                    let ppb := fp / (s.numBuyers : ℚ)
                    let dp := ppb * (s.downpaymentPercent / 100)
                    let loan := ppb - dp
                    let m := s.loanDurationYears * 12
                    let r := c.financing.interestRateAnnual / 12
                    let mp := if 100 ≤ s.downpaymentPercent then 0
                              else if r = 0 then loan / (m : ℚ)
                              else loan * (r * (1 + r) ^ m) / ((1 + r) ^ m - 1)
                    .ok { basePrice := base, upgradeTotal := upgTot, artCost := artC,
                          finalPrice := fp, pricePerBuyer := ppb, downpayment := dp,
                          loanAmount := loan, months := m, monthlyInterest := r,
                          monthlyPayment := mp, totalPaid := dp + mp * m }
                  else .error .nonpositiveMonths
                else .error .durationNotOffered
              else .error .downpaymentNotOffered
            else .error .buyersOutOfRange
        else .error .unknownUpgrade
    else .error .unknownConfiguration

/-- Nonnegativity of a base price entry (flat or per-configuration). -/
def PriceNonneg (bp : ℚ ⊕ List (String × ℚ)) : Prop :=
  match bp with
  | .inl flat => 0 ≤ flat
  | .inr table => ∀ p ∈ table, 0 ≤ p.2

/-- A catalog all of whose amounts are nonnegative: base prices, upgrade
costs, art multipliers and the annual interest rate. -/
def CatalogNonneg (c : CatalogConfig) : Prop :=
  (∀ ut ∈ c.unitTypes, PriceNonneg ut.2.basePrice ∧ ∀ u ∈ ut.2.upgrades, 0 ≤ u.2) ∧
  (∀ a ∈ c.artTiers, 0 ≤ a.2) ∧
  0 ≤ c.financing.interestRateAnnual

/-- A concrete one-unit catalog used to exercise the embedding: flat base
price 100, one upgrade worth 20, art tier multiplier 1/20, full
downpayment offered, one-year term at 6% annual interest. -/
def exCatalog : CatalogConfig :=
  { unitTypes := [("Casa", { configurations := ["Std"],
                             basePrice := .inl 100,
                             upgrades := [("Pool", 20)] })],
    artTiers := [("Gold", 1/20)],
    financing := { maxBuyers := 4,
                   downpaymentOptionsPercent := [100],
                   loanDurationsYears := [1],
                   interestRateAnnual := 6/100 } }

/-- The unit-type entry stored in `exCatalog`. -/
def exInfo : UnitTypeInfo :=
  { configurations := ["Std"], basePrice := .inl 100, upgrades := [("Pool", 20)] }

/-- A concrete selection over `exCatalog`: the upgrade checked, two
buyers, 100% downpayment, one-year term. -/
def exSelection : Selection :=
  { unitType := "Casa", configuration := "Std", selectedUpgrades := ["Pool"],
    artTier := "Gold", numBuyers := 2, downpaymentPercent := 100,
    loanDurationYears := 1 }

/-- The quote the script computes for `exSelection` over `exCatalog`. -/
def exQuote : Quote :=
  { basePrice := 100, upgradeTotal := 20, artCost := 5, finalPrice := 125,
    pricePerBuyer := 125/2, downpayment := 125/2, loanAmount := 0,
    months := 12, monthlyInterest := 1/200, monthlyPayment := 0,
    totalPaid := 125/2 }

/-- `exSelection` with a zero buyer count, an input the widgets of the
script cannot produce and the specified engine must reject. -/
def badSelection : Selection :=
  { exSelection with numBuyers := 0 }

/-- A catalog whose annual interest rate is zero, otherwise like
`exCatalog`, with a 20% downpayment option; used to exercise the
zero-interest edge case. -/
def zeroRateCatalog : CatalogConfig :=
  { unitTypes := [("Casa", { configurations := ["Std"],
                             basePrice := .inl 100,
                             upgrades := [] })],
    artTiers := [("None", 0)],
    financing := { maxBuyers := 4,
                   downpaymentOptionsPercent := [20, 100],
                   loanDurationsYears := [1],
                   interestRateAnnual := 0 } }

/-- A selection over `zeroRateCatalog` with a 20% downpayment (so a loan
remains) and a one-year term. -/
def zeroRateSelection : Selection :=
  { unitType := "Casa", configuration := "Std", selectedUpgrades := [],
    artTier := "None", numBuyers := 1, downpaymentPercent := 20,
    loanDurationYears := 1 }

/-- The catalog of the amortization benchmark: flat base price 125000,
no upgrades, a free art tier, 6% annual interest over a 30-year option,
so that a 20% downpayment leaves a loan of exactly 100000. -/
def benchCatalog : CatalogConfig :=
  { unitTypes := [("Casa", { configurations := ["Std"],
                             basePrice := .inl 125000,
                             upgrades := [] })],
    artTiers := [("None", 0)],
    financing := { maxBuyers := 10,
                   downpaymentOptionsPercent := [20],
                   loanDurationsYears := [30],
                   interestRateAnnual := 6/100 } }

/-- The benchmark selection: one buyer, 20% downpayment, 30-year term. -/
def benchSelection : Selection :=
  { unitType := "Casa", configuration := "Std", selectedUpgrades := [],
    artTier := "None", numBuyers := 1, downpaymentPercent := 20,
    loanDurationYears := 30 }

/-- The quote of the benchmark run: a 100000 loan at monthly rate 1/200
over 360 months. -/
def benchQuote : Quote :=
  { basePrice := 125000, upgradeTotal := 0, artCost := 0, finalPrice := 125000,
    pricePerBuyer := 125000, downpayment := 25000, loanAmount := 100000,
    months := 360, monthlyInterest := 1/200,
    monthlyPayment := 100000 * ((1/200 : ℚ) * (201/200) ^ 360) / ((201/200 : ℚ) ^ 360 - 1),
    totalPaid := 25000 +
      100000 * ((1/200 : ℚ) * (201/200) ^ 360) / ((201/200 : ℚ) ^ 360 - 1) * 360 }

theorem lookup_mem {α β : Type} [BEq α] [LawfulBEq α] {l : List (α × β)} {a : α} {b : β}
    (h : l.lookup a = some b) : (a, b) ∈ l := by
  induction l with
  | nil => simp [List.lookup] at h
  | cons p t ih =>
    rw [List.lookup] at h
    split at h
    next heq =>
      have ha : a = p.1 := by simpa using heq
      have hb : b = p.2 := (Option.some.inj h).symm
      have : (a, b) = p := by rw [ha, hb]
      rw [this]
      exact List.mem_cons_self p t
    next => exact List.mem_cons_of_mem _ (ih h)

theorem labels_array_length (m : ℕ) : (labels_array m).length = m + 1 := by
  simp [labels_array]

theorem payments_array_length (dp mp : ℚ) (m : ℕ) :
    (payments_array dp mp m).length = m + 1 := by
  simp [payments_array]

theorem labels_array_get (m i : ℕ) (h : i < m) :
    (labels_array m)[i + 1]? = some ("Month " ++ toString (i + 1)) := by
  rw [labels_array, List.getElem?_cons_succ, List.getElem?_map, List.getElem?_range h,
    Option.map_some']

theorem payments_array_get (dp mp : ℚ) (m i : ℕ) (h : i < m) :
    (payments_array dp mp m)[i + 1]? = some mp := by
  rw [payments_array, List.getElem?_cons_succ, List.getElem?_replicate, if_pos h]

theorem zip_map_replicate {α β γ : Type} (f : α → β) (c : γ) (xs : List α) :
    (xs.map f).zip (List.replicate xs.length c) = xs.map fun x => (f x, c) := by
  induction xs with
  | nil => rfl
  | cons a t ih => simp only [List.map_cons, List.length_cons, List.replicate_succ,
      List.zip_cons_cons, ih]

/-- The schedule is the downpayment entry followed by the `months`
monthly entries. -/
theorem schedule_eq (dp mp : ℚ) (m : ℕ) :
    schedule dp mp m = ("Downpayment", dp) ::
      (List.range m).map fun i => ("Month " ++ toString (i + 1), mp) := by
  have h := zip_map_replicate (fun i => "Month " ++ toString (i + 1)) mp (List.range m)
  rw [List.length_range] at h
  rw [schedule, labels_array, payments_array, List.zip_cons_cons, h]

theorem safeDiv_eq_some {a b x : ℚ} (h : safeDiv a b = some x) : b ≠ 0 ∧ x = a / b := by
  unfold safeDiv at h
  split at h
  · exact absurd h (by simp)
  next hb => exact ⟨hb, (Option.some.inj h).symm⟩

/-- Inversion of a successful run of the script: all lookups succeeded,
no division by zero occurred, and every field of the produced quote
satisfies the defining equations of source lines 50-60. -/
theorem computeQuoteScript_inv {c : CatalogConfig} {s : Selection} {q : Quote}
    (h : computeQuoteScript c s = some q) :
    ∃ info base mult,
      c.unitTypes.lookup s.unitType = some info ∧
      resolve_base_price info s.configuration = some base ∧
      c.artTiers.lookup s.artTier = some mult ∧
      (s.numBuyers : ℚ) ≠ 0 ∧
      q.basePrice = base ∧
      q.upgradeTotal = upgrade_total info s.selectedUpgrades ∧
      q.artCost = base * mult ∧
      q.finalPrice = base + q.upgradeTotal + q.artCost ∧
      q.pricePerBuyer = q.finalPrice / (s.numBuyers : ℚ) ∧
      q.downpayment = q.pricePerBuyer * (s.downpaymentPercent / 100) ∧
      q.loanAmount = q.pricePerBuyer - q.downpayment ∧
      q.months = s.loanDurationYears * 12 ∧
      q.monthlyInterest = c.financing.interestRateAnnual / 12 ∧
      ((s.downpaymentPercent < 100 ∧
        (1 + q.monthlyInterest) ^ q.months - 1 ≠ 0 ∧
        q.monthlyPayment = q.loanAmount *
          (q.monthlyInterest * (1 + q.monthlyInterest) ^ q.months) /
          ((1 + q.monthlyInterest) ^ q.months - 1)) ∨
       (¬ s.downpaymentPercent < 100 ∧ q.monthlyPayment = 0)) ∧
      q.totalPaid = q.downpayment + q.monthlyPayment * q.months := by
  simp only [computeQuoteScript] at h
  split at h
  · exact absurd h (by simp)
  next info hinfo =>
    split at h
    · exact absurd h (by simp)
    next base hbase =>
      split at h
      · exact absurd h (by simp)
      next mult hmult =>
        split at h
        · exact absurd h (by simp)
        next ppb hppb =>
          split at h
          · exact absurd h (by simp)
          next mp hmp =>
            obtain ⟨hn, hppb'⟩ := safeDiv_eq_some hppb
            injection h with h
            subst h
            refine ⟨info, base, mult, hinfo, hbase, hmult, hn, rfl, rfl, rfl, rfl,
              hppb', rfl, rfl, rfl, rfl, ?_, rfl⟩
            split at hmp
            next hdp =>
              obtain ⟨hden, hmp'⟩ := safeDiv_eq_some hmp
              exact Or.inl ⟨hdp, hden, hmp'⟩
            next hdp =>
              exact Or.inr ⟨hdp, (Option.some.inj hmp).symm⟩

/-- A successful run of the specified engine implies every validation of
spec section 4.2 passed. -/
theorem computeQuote_ok_valid {c : CatalogConfig} {s : Selection} {q : Quote}
    (h : computeQuote c s = Except.ok q) :
    (c.unitTypes.lookup s.unitType).isSome = true ∧
    (c.artTiers.lookup s.artTier).isSome = true ∧
    1 ≤ s.numBuyers ∧ s.numBuyers ≤ c.financing.maxBuyers ∧
    s.downpaymentPercent ∈ c.financing.downpaymentOptionsPercent ∧
    s.loanDurationYears ∈ c.financing.loanDurationsYears := by
  simp only [computeQuote] at h
  split at h
  · exact Except.noConfusion h
  next info hinfo =>
    split at h
    case isFalse => exact Except.noConfusion h
    split at h
    · exact Except.noConfusion h
    next base hbase =>
      split at h
      case isFalse => exact Except.noConfusion h
      split at h
      · exact Except.noConfusion h
      next mult hmult =>
        split at h
        case isFalse => exact Except.noConfusion h
        next hbuy =>
          split at h
          case isFalse => exact Except.noConfusion h
          next hdp =>
            split at h
            case isFalse => exact Except.noConfusion h
            next hdur =>
              split at h
              case isFalse => exact Except.noConfusion h
              exact ⟨by simp [hinfo], by simp [hmult], hbuy.1, hbuy.2, hdp, hdur⟩

theorem computeQuoteScript_ex : computeQuoteScript exCatalog exSelection = some exQuote := by
  simp [computeQuoteScript, exCatalog, exSelection, exQuote, resolve_base_price,
        upgrade_total, safeDiv, List.lookup]
  norm_num

theorem computeQuoteScript_bench :
    computeQuoteScript benchCatalog benchSelection = some benchQuote := by
  simp [computeQuoteScript, benchCatalog, benchSelection, benchQuote, resolve_base_price,
        upgrade_total, safeDiv, List.lookup]
  norm_num

theorem bench_rate_pos : 0 < benchCatalog.financing.interestRateAnnual / 12 := by
  norm_num [benchCatalog]

theorem bench_dp_lt : benchSelection.downpaymentPercent < 100 := by decide

theorem exCatalog_nonneg : CatalogNonneg exCatalog := by
  norm_num [CatalogNonneg, PriceNonneg, exCatalog]

/-- C1: whenever the script computes a quote for a selection with
`downpaymentPercent < 100` and a positive monthly interest rate, the
monthly payment equals `loanAmount * (r * (1+r)^months) / ((1+r)^months - 1)`
with `r = interestRateAnnual/12` and `months = loanDurationYears*12`, and
`totalPaid = downpayment + monthlyPayment * months`; in particular the
benchmark loan of 100000 at 6% annual interest over 360 months has a
monthly payment within 0.01 of 599.55. -/
theorem annuity_formula_and_benchmark :
    (∀ (c : CatalogConfig) (s : Selection) (q : Quote),
      computeQuoteScript c s = some q →
      s.downpaymentPercent < 100 →
      0 < c.financing.interestRateAnnual / 12 →
      q.monthlyPayment = q.loanAmount *
          ((c.financing.interestRateAnnual / 12) *
            (1 + c.financing.interestRateAnnual / 12) ^ (s.loanDurationYears * 12)) /
          ((1 + c.financing.interestRateAnnual / 12) ^ (s.loanDurationYears * 12) - 1) ∧
        q.totalPaid = q.downpayment +
          q.monthlyPayment * ((s.loanDurationYears * 12 : ℕ) : ℚ)) ∧
    computeQuoteScript benchCatalog benchSelection = some benchQuote ∧
    benchQuote.loanAmount = 100000 ∧ benchQuote.months = 360 ∧
    |benchQuote.monthlyPayment - 59955/100| < 1/100 := by
  refine ⟨?_, computeQuoteScript_bench, rfl, rfl, ?_⟩
  · intro c s q h hdp hr
    obtain ⟨info, base, mult, _, _, _, _, _, _, _, _, _, _, _, hm, hri, hmp, htp⟩ :=
      computeQuoteScript_inv h
    rcases hmp with ⟨_, _, hmp'⟩ | ⟨hge, _⟩
    · rw [hri, hm] at hmp'
      rw [hm] at htp
      exact ⟨hmp', htp⟩
    · exact absurd hdp hge
  · show |(100000 * ((1/200 : ℚ) * (201/200) ^ 360) / ((201/200 : ℚ) ^ 360 - 1)) -
      59955/100| < 1/100
    rw [abs_sub_lt_iff]
    constructor <;> norm_num

theorem annuity_formula_and_benchmark_witness :
    benchQuote.monthlyPayment = benchQuote.loanAmount *
        ((benchCatalog.financing.interestRateAnnual / 12) *
          (1 + benchCatalog.financing.interestRateAnnual / 12) ^
            (benchSelection.loanDurationYears * 12)) /
        ((1 + benchCatalog.financing.interestRateAnnual / 12) ^
            (benchSelection.loanDurationYears * 12) - 1) ∧
      benchQuote.totalPaid = benchQuote.downpayment +
        benchQuote.monthlyPayment * ((benchSelection.loanDurationYears * 12 : ℕ) : ℚ) :=
  annuity_formula_and_benchmark.1 benchCatalog benchSelection benchQuote
    computeQuoteScript_bench bench_dp_lt bench_rate_pos

/-- C2: whenever the script computes a quote, the final price is the base
price plus the upgrade total plus the art cost, the upgrade total is the
sum of the selected upgrades' costs, the art cost is the base price times
the art multiplier, and the per-buyer price times the buyer count equals
the final price exactly. -/
theorem conservation_of_final_price (c : CatalogConfig) (s : Selection) (q : Quote)
    (info : UnitTypeInfo) (mult : ℚ)
    (h : computeQuoteScript c s = some q)
    (hinfo : c.unitTypes.lookup s.unitType = some info)
    (hmult : c.artTiers.lookup s.artTier = some mult) :
    q.finalPrice = q.basePrice + q.upgradeTotal + q.artCost ∧
    q.upgradeTotal = upgrade_total info s.selectedUpgrades ∧
    q.artCost = q.basePrice * mult ∧
    q.pricePerBuyer * (s.numBuyers : ℚ) = q.finalPrice := by
  obtain ⟨info', base, mult', h1, _, h3, hn, hb, hu, ha, hf, hp, _, _, _, _, _, _⟩ :=
    computeQuoteScript_inv h
  rw [hinfo] at h1
  rw [hmult] at h3
  obtain rfl : info = info' := Option.some.inj h1
  obtain rfl : mult = mult' := Option.some.inj h3
  refine ⟨?_, hu, ?_, ?_⟩
  · rw [hf, hb]
  · rw [ha, hb]
  · rw [hp]
    exact div_mul_cancel₀ _ hn

theorem conservation_of_final_price_witness :
    exQuote.finalPrice = exQuote.basePrice + exQuote.upgradeTotal + exQuote.artCost ∧
    exQuote.upgradeTotal = upgrade_total exInfo exSelection.selectedUpgrades ∧
    exQuote.artCost = exQuote.basePrice * (1/20) ∧
    exQuote.pricePerBuyer * (exSelection.numBuyers : ℚ) = exQuote.finalPrice :=
  conservation_of_final_price exCatalog exSelection exQuote exInfo (1/20)
    computeQuoteScript_ex rfl rfl

/-- C3: whenever the script computes a quote for a selection with
`downpaymentPercent = 100`, the monthly payment is 0 and the total paid
equals the downpayment. -/
theorem full_downpayment_monthly_zero (c : CatalogConfig) (s : Selection) (q : Quote)
    (h : computeQuoteScript c s = some q)
    (hdp : s.downpaymentPercent = 100) :
    q.monthlyPayment = 0 ∧ q.totalPaid = q.downpayment := by
  obtain ⟨_, _, _, _, _, _, _, _, _, _, _, _, _, _, _, _, hmp, htp⟩ :=
    computeQuoteScript_inv h
  rcases hmp with ⟨hlt, _, _⟩ | ⟨_, hmp0⟩
  · rw [hdp] at hlt
    exact absurd hlt (lt_irrefl 100)
  · refine ⟨hmp0, ?_⟩
    rw [htp, hmp0, zero_mul, add_zero]

theorem full_downpayment_monthly_zero_witness :
    exQuote.monthlyPayment = 0 ∧ exQuote.totalPaid = exQuote.downpayment :=
  full_downpayment_monthly_zero exCatalog exSelection exQuote computeQuoteScript_ex rfl

/-- C4: the claim that zero interest with a partial downpayment cannot
crash FAILS on the code.  At annual interest 0 and 20% downpayment the
script's annuity denominator `(1+0)^months - 1` is zero, so line 57
raises an uncaught `ZeroDivisionError` (the run evaluates to `none`);
the engine specified in section 4.2, which has the explicit
zero-interest branch `monthlyPayment = loanAmount / months`, succeeds on
the same input. -/
theorem zero_interest_crash :
    computeQuoteScript zeroRateCatalog zeroRateSelection = none ∧
    exceptOk (computeQuote zeroRateCatalog zeroRateSelection) = true := by
  constructor
  · norm_num [computeQuoteScript, zeroRateCatalog, zeroRateSelection, resolve_base_price,
      upgrade_total, safeDiv, List.lookup]
  · norm_num [computeQuote, exceptOk, zeroRateCatalog, zeroRateSelection,
      resolve_base_price, List.lookup]

/-- C5: the specified engine rejects, with a `SelectionError`, every
selection whose buyer count is 0 or exceeds `maxBuyers`, whose art tier
is unknown, or whose downpayment percent or loan duration is not among
the configured options. -/
theorem boundary_rejection (c : CatalogConfig) (s : Selection)
    (h : s.numBuyers = 0 ∨ c.financing.maxBuyers < s.numBuyers ∨
         c.artTiers.lookup s.artTier = none ∨
         s.downpaymentPercent ∉ c.financing.downpaymentOptionsPercent ∨
         s.loanDurationYears ∉ c.financing.loanDurationsYears) :
    exceptOk (computeQuote c s) = false := by
  cases hq : computeQuote c s with
  | error e => simp [exceptOk]
  | ok q =>
    exfalso
    obtain ⟨_, ha, h1, h2, h3, h4⟩ := computeQuote_ok_valid hq
    rcases h with h | h | h | h | h
    · omega
    · omega
    · rw [h] at ha
      simp at ha
    · exact h h3
    · exact h h4

theorem boundary_rejection_witness : exceptOk (computeQuote exCatalog badSelection) = false :=
  boundary_rejection exCatalog badSelection (Or.inl rfl)

/-- C6: whenever the script computes a quote, its payment schedule has
exactly `months + 1` entries, the first entry is labelled "Downpayment"
with the downpayment amount, and entries 1 through `months` are labelled
"Month i" (1-indexed), each carrying the monthly payment. -/
theorem schedule_shape (c : CatalogConfig) (s : Selection) (q : Quote)
    (h : computeQuoteScript c s = some q) :
    (schedule q.downpayment q.monthlyPayment q.months).length = q.months + 1 ∧
    (schedule q.downpayment q.monthlyPayment q.months)[0]? =
      some ("Downpayment", q.downpayment) ∧
    ∀ i, 1 ≤ i → i ≤ q.months →
      (schedule q.downpayment q.monthlyPayment q.months)[i]? =
        some ("Month " ++ toString i, q.monthlyPayment) := by
  refine ⟨?_, ?_, ?_⟩
  · rw [schedule_eq]
    simp
  · rw [schedule_eq]
    exact List.getElem?_cons_zero
  · intro i h1 h2
    obtain ⟨j, rfl⟩ : ∃ j, i = j + 1 := ⟨i - 1, by omega⟩
    rw [schedule_eq, List.getElem?_cons_succ, List.getElem?_map,
      List.getElem?_range (by omega : j < q.months), Option.map_some']

theorem schedule_shape_witness :
    (schedule exQuote.downpayment exQuote.monthlyPayment exQuote.months).length =
      exQuote.months + 1 ∧
    (schedule exQuote.downpayment exQuote.monthlyPayment exQuote.months)[0]? =
      some ("Downpayment", exQuote.downpayment) ∧
    (schedule exQuote.downpayment exQuote.monthlyPayment exQuote.months)[1]? =
      some ("Month " ++ toString 1, exQuote.monthlyPayment) :=
  ⟨(schedule_shape exCatalog exSelection exQuote computeQuoteScript_ex).1,
   (schedule_shape exCatalog exSelection exQuote computeQuoteScript_ex).2.1,
   (schedule_shape exCatalog exSelection exQuote computeQuoteScript_ex).2.2 1
     (by decide) (by decide)⟩

/-- C7: for any display count the chart slider can produce (at most
`slider_max months`, with the schedule spanning at least a year as every
configured duration guarantees), the trimming step of lines 114-115
returns exactly the first `displayCount + 1` entries of each array — a
prefix, of length `displayCount + 1`, that recombines with the dropped
suffix to the untouched full array — and the full arrays keep all
`months + 1` entries (the trimming is pure, so the underlying schedule
is never mutated). -/
theorem display_trim_prefix (dp mp : ℚ) (m n : ℕ) (hn : n ≤ slider_max m) (hm : 12 ≤ m) :
    trimmed_labels (labels_array m) n = (labels_array m).take (n + 1) ∧
    trimmed_values (payments_array dp mp m) n = (payments_array dp mp m).take (n + 1) ∧
    (trimmed_labels (labels_array m) n).length = n + 1 ∧
    (trimmed_values (payments_array dp mp m) n).length = n + 1 ∧
    trimmed_labels (labels_array m) n ++ (labels_array m).drop (n + 1) = labels_array m ∧
    trimmed_values (payments_array dp mp m) n ++ (payments_array dp mp m).drop (n + 1) =
      payments_array dp mp m ∧
    (labels_array m).length = m + 1 ∧
    (payments_array dp mp m).length = m + 1 := by
  have hnm : n ≤ m := by
    unfold slider_max slider_min at hn
    omega
  refine ⟨rfl, rfl, ?_, ?_, ?_, ?_, labels_array_length m, payments_array_length dp mp m⟩
  · simp only [trimmed_labels, List.length_take, labels_array_length]
    exact min_eq_left (by omega)
  · simp only [trimmed_values, List.length_take, payments_array_length]
    exact min_eq_left (by omega)
  · exact List.take_append_drop _ _
  · exact List.take_append_drop _ _

theorem display_trim_prefix_witness :
    trimmed_labels (labels_array 12) 6 = (labels_array 12).take 7 ∧
    trimmed_values (payments_array 0 0 12) 6 = (payments_array 0 0 12).take 7 ∧
    (trimmed_labels (labels_array 12) 6).length = 7 ∧
    (trimmed_values (payments_array 0 0 12) 6).length = 7 ∧
    trimmed_labels (labels_array 12) 6 ++ (labels_array 12).drop 7 = labels_array 12 ∧
    trimmed_values (payments_array 0 0 12) 6 ++ (payments_array 0 0 12).drop 7 =
      payments_array 0 0 12 ∧
    (labels_array 12).length = 13 ∧
    (payments_array 0 0 12).length = 13 :=
  display_trim_prefix 0 0 12 6 (by decide) (by decide)

/-- C8: the script's quote computation is deterministic — two runs on
equal catalog and selection arguments produce equal results (hence, in
particular, results within any tolerance). -/
theorem computeQuoteScript_deterministic (c₁ c₂ : CatalogConfig) (s₁ s₂ : Selection)
    (hc : c₁ = c₂) (hs : s₁ = s₂) :
    computeQuoteScript c₁ s₁ = computeQuoteScript c₂ s₂ := by
  rw [hc, hs]

theorem computeQuoteScript_deterministic_witness :
    computeQuoteScript exCatalog exSelection = computeQuoteScript exCatalog exSelection :=
  computeQuoteScript_deterministic exCatalog exCatalog exSelection exSelection rfl rfl

/-- C9: over a catalog with nonnegative base prices, upgrade costs, art
multipliers and interest rate, and a selection with at least one buyer,
a downpayment percent in [0, 100] and at least a one-year term, every
derived quote amount is nonnegative. -/
theorem quote_amounts_nonneg (c : CatalogConfig) (s : Selection) (q : Quote)
    (h : computeQuoteScript c s = some q)
    (hc : CatalogNonneg c)
    (hb : 1 ≤ s.numBuyers)
    (h0 : 0 ≤ s.downpaymentPercent) (h100 : s.downpaymentPercent ≤ 100)
    (hy : 1 ≤ s.loanDurationYears) :
    0 ≤ q.upgradeTotal ∧ 0 ≤ q.artCost ∧ 0 ≤ q.finalPrice ∧ 0 ≤ q.pricePerBuyer ∧
    0 ≤ q.downpayment ∧ 0 ≤ q.loanAmount ∧ 0 ≤ q.monthlyPayment ∧ 0 ≤ q.totalPaid := by
  obtain ⟨info, base, mult, h1, h2, h3, hn, hbase, hu, ha, hf, hp, hd, hl, hm, hri, hmp, htp⟩ :=
    computeQuoteScript_inv h
  obtain ⟨hcu, hca, hcr⟩ := hc
  have hinfo_mem : (s.unitType, info) ∈ c.unitTypes := lookup_mem h1
  have hbase_nonneg : 0 ≤ base := by
    have hpn := (hcu _ hinfo_mem).1
    unfold resolve_base_price at h2
    split at h2
    next flat heq =>
      obtain rfl : flat = base := Option.some.inj h2
      rw [heq] at hpn
      simpa [PriceNonneg] using hpn
    next table heq =>
      rw [heq] at hpn
      simp only [PriceNonneg] at hpn
      exact hpn _ (lookup_mem h2)
  have hmult_nonneg : 0 ≤ mult := hca _ (lookup_mem h3)
  have hupg : 0 ≤ upgrade_total info s.selectedUpgrades := by
    apply List.sum_nonneg
    intro x hx
    simp only [List.mem_map] at hx
    obtain ⟨p, hpmem, rfl⟩ := hx
    exact (hcu _ hinfo_mem).2 p (List.mem_of_mem_filter hpmem)
  have hn' : (0 : ℚ) ≤ (s.numBuyers : ℚ) := Nat.cast_nonneg _
  have hU : 0 ≤ q.upgradeTotal := by rw [hu]; exact hupg
  have hA : 0 ≤ q.artCost := by rw [ha]; exact mul_nonneg hbase_nonneg hmult_nonneg
  have hF : 0 ≤ q.finalPrice := by
    rw [hf]
    exact add_nonneg (add_nonneg hbase_nonneg hU) hA
  have hP : 0 ≤ q.pricePerBuyer := by rw [hp]; exact div_nonneg hF hn'
  have hD : 0 ≤ q.downpayment := by
    rw [hd]
    exact mul_nonneg hP (div_nonneg h0 (by norm_num))
  have hL : 0 ≤ q.loanAmount := by
    have hfac : q.loanAmount = q.pricePerBuyer * (1 - s.downpaymentPercent / 100) := by
      rw [hl, hd]; ring
    rw [hfac]
    apply mul_nonneg hP
    have : s.downpaymentPercent / 100 ≤ 1 := by linarith
    linarith
  have hr' : 0 ≤ q.monthlyInterest := by
    rw [hri]
    exact div_nonneg hcr (by norm_num)
  have hM : 0 ≤ q.monthlyPayment := by
    rcases hmp with ⟨_, hden, hmp'⟩ | ⟨_, hmp0⟩
    · rw [hmp']
      apply div_nonneg
      · exact mul_nonneg hL (mul_nonneg hr' (pow_nonneg (by linarith) _))
      · have hpow : (1 : ℚ) ≤ (1 + q.monthlyInterest) ^ q.months :=
          one_le_pow₀ (by linarith)
        linarith
    · rw [hmp0]
  have hT : 0 ≤ q.totalPaid := by
    rw [htp]
    exact add_nonneg hD (mul_nonneg hM (Nat.cast_nonneg _))
  exact ⟨hU, hA, hF, hP, hD, hL, hM, hT⟩

theorem quote_amounts_nonneg_witness :
    0 ≤ exQuote.upgradeTotal ∧ 0 ≤ exQuote.artCost ∧ 0 ≤ exQuote.finalPrice ∧
    0 ≤ exQuote.pricePerBuyer ∧ 0 ≤ exQuote.downpayment ∧ 0 ≤ exQuote.loanAmount ∧
    0 ≤ exQuote.monthlyPayment ∧ 0 ≤ exQuote.totalPaid :=
  quote_amounts_nonneg exCatalog exSelection exQuote computeQuoteScript_ex
    exCatalog_nonneg (by decide) (by decide) (by decide) (by decide)

/-- C10: the trimmed label and value sequences always have equal length,
and when the display count is at least the slider minimum of 6 (and the
schedule spans at least a year, as every configured duration guarantees)
the trimmed window keeps the downpayment entry first together with at
least the first 6 monthly entries. -/
theorem chart_window_invariant (dp mp : ℚ) (m n : ℕ)
    (h6 : slider_min ≤ n) (hm : 12 ≤ m) :
    (trimmed_labels (labels_array m) n).length =
      (trimmed_values (payments_array dp mp m) n).length ∧
    (trimmed_labels (labels_array m) n)[0]? = some "Downpayment" ∧
    (trimmed_values (payments_array dp mp m) n)[0]? = some dp ∧
    ∀ i, 1 ≤ i → i ≤ 6 →
      (trimmed_labels (labels_array m) n)[i]? = some ("Month " ++ toString i) ∧
      (trimmed_values (payments_array dp mp m) n)[i]? = some mp := by
  have hsm : slider_min = 6 := rfl
  rw [hsm] at h6
  refine ⟨?_, ?_, ?_, ?_⟩
  · simp only [trimmed_labels, trimmed_values, List.length_take, labels_array_length,
      payments_array_length]
  · simp only [trimmed_labels, List.getElem?_take]
    rw [if_pos (by omega : 0 < n + 1), labels_array]
    exact List.getElem?_cons_zero
  · simp only [trimmed_values, List.getElem?_take]
    rw [if_pos (by omega : 0 < n + 1), payments_array]
    exact List.getElem?_cons_zero
  · intro i h1 h2
    obtain ⟨j, rfl⟩ : ∃ j, i = j + 1 := ⟨i - 1, by omega⟩
    constructor
    · simp only [trimmed_labels, List.getElem?_take]
      rw [if_pos (by omega : j + 1 < n + 1)]
      exact labels_array_get m j (by omega)
    · simp only [trimmed_values, List.getElem?_take]
      rw [if_pos (by omega : j + 1 < n + 1)]
      exact payments_array_get dp mp m j (by omega)

theorem chart_window_invariant_witness :
    (trimmed_labels (labels_array 12) 6).length =
      (trimmed_values (payments_array 0 0 12) 6).length ∧
    (trimmed_labels (labels_array 12) 6)[1]? = some ("Month " ++ toString 1) :=
  ⟨(chart_window_invariant 0 0 12 6 (by decide) (by decide)).1,
   ((chart_window_invariant 0 0 12 6 (by decide) (by decide)).2.2.2 1 (by decide)
     (by decide)).1⟩
